import Mathlib

/-!
Shallow embedding of the medicsystem-gta-backend authorization gate,
cross-record synchronizer, and exam-result computation, with proofs of
the specification's testable properties.

Python `datetime` values are modelled as abstract `Nat` ticks supplied by
the caller (the code only stores them); Python floats are modelled as
rationals; fallible operations return `Option`/`Except`.
-/

namespace MedicSystem

/-- User roles, from `src/schemas/enums.py` (`UserRole`). -/
inductive UserRole where
  | admin
  | doctor
  | police
  | patient
deriving DecidableEq, Repr

/-- The string value of a role, as stored by the `str, Enum` mixin. -/
def UserRole.value : UserRole → String
  | .admin => "admin"
  | .doctor => "doctor"
  | .police => "police"
  | .patient => "patient"

/-- Base user record, from `src/models/user.py` (`UserDB`). -/
structure UserDB where
  user_id : String
  firebase_uid : String
  name : String
  dni : String
  email : String
  phone : Option String
  role : UserRole
  enabled : Bool
  is_admin : Bool
  created_at : Nat
  updated_at : Nat
deriving DecidableEq, Repr

/-- Doctor profile document, from `src/models/user.py` (`DoctorDB`). -/
structure DoctorDB where
  user_id : String
  medical_license : Option String
  specialty : Option String
  sub_specialty : Option String
  institution : Option String
  years_experience : Option Nat
  can_prescribe : Bool
  can_diagnose : Bool
  can_perform_procedures : Bool
deriving DecidableEq, Repr

/-- Police profile document, from `src/models/user.py` (`PoliceDB`). -/
structure PoliceDB where
  user_id : String
  badge_number : Option String
  rank : Option String
  department : Option String
  station : Option String
  years_service : Option Nat
  can_arrest : Bool
  can_investigate : Bool
  can_access_medical_info : Bool
deriving DecidableEq, Repr

/-- API user schema, from `src/schemas/user.py` (`User`). -/
structure User where
  user_id : String
  firebase_uid : String
  name : String
  dni : String
  email : String
  phone : Option String
  role : UserRole
  enabled : Bool
  is_admin : Bool
  created_at : Nat
  updated_at : Nat
deriving DecidableEq, Repr

/-- API doctor schema, from `src/schemas/user.py` (`Doctor`, extending `User`). -/
structure Doctor where
  user_id : String
  firebase_uid : String
  name : String
  dni : String
  email : String
  phone : Option String
  role : UserRole
  enabled : Bool
  is_admin : Bool
  created_at : Nat
  updated_at : Nat
  specialty : Option String
  medical_license : Option String
  institution : Option String
  years_experience : Option Nat
deriving DecidableEq, Repr

/-- API police schema, from `src/schemas/user.py` (`Police`, extending `User`). -/
structure Police where
  user_id : String
  firebase_uid : String
  name : String
  dni : String
  email : String
  phone : Option String
  role : UserRole
  enabled : Bool
  is_admin : Bool
  created_at : Nat
  updated_at : Nat
  badge_number : Option String
  rank : Option String
  department : Option String
  station : Option String
  years_service : Option Nat
deriving DecidableEq, Repr

/-- The persistent user directory: the `users`, `doctors` and `police`
collections read by `UserRepository` in `src/services/user.py`. -/
structure UserDirectory where
  users : List UserDB
  doctor_profiles : List DoctorDB
  police_profiles : List PoliceDB
deriving Repr

/-- `UserService._user_db_to_user` from `src/services/user.py`. -/
def user_db_to_user (u : UserDB) : User :=
  { user_id := u.user_id, firebase_uid := u.firebase_uid, name := u.name,
    dni := u.dni, email := u.email, phone := u.phone, role := u.role,
    enabled := u.enabled, is_admin := u.is_admin,
    created_at := u.created_at, updated_at := u.updated_at }

/-- `UserService.get_user_by_firebase_uid` from `src/services/user.py`:
the repository lookup by `firebase_uid`, returning the converted user only
when the record exists and is enabled. -/
def get_user_by_firebase_uid (dir : UserDirectory) (firebase_uid : String) :
    Option User :=
  match dir.users.find? (fun u => u.firebase_uid == firebase_uid) with
  | some user_db =>
      if user_db.enabled then some (user_db_to_user user_db) else none
  | none => none

/-- `UserService.get_doctor_by_firebase_uid` from `src/services/user.py`:
returns `none` when the base record is missing, disabled, or not of role
doctor; otherwise joins the optional doctor profile. -/
def get_doctor_by_firebase_uid (dir : UserDirectory) (firebase_uid : String) :
    Option Doctor :=
  match dir.users.find? (fun u => u.firebase_uid == firebase_uid) with
  | none => none
  | some user_db =>
      if !user_db.enabled || !(user_db.role == UserRole.doctor) then none
      else
        let doctor_profile :=
          dir.doctor_profiles.find? (fun p => p.user_id == user_db.user_id)
        some { user_id := user_db.user_id, firebase_uid := user_db.firebase_uid,
               name := user_db.name, dni := user_db.dni, email := user_db.email,
               phone := user_db.phone, role := user_db.role,
               enabled := user_db.enabled, is_admin := user_db.is_admin,
               created_at := user_db.created_at, updated_at := user_db.updated_at,
               specialty := doctor_profile.bind (fun p => p.specialty),
               medical_license := doctor_profile.bind (fun p => p.medical_license),
               institution := doctor_profile.bind (fun p => p.institution),
               years_experience := doctor_profile.bind (fun p => p.years_experience) }

/-- `UserService.get_police_by_firebase_uid` from `src/services/user.py`. -/
def get_police_by_firebase_uid (dir : UserDirectory) (firebase_uid : String) :
    Option Police :=
  match dir.users.find? (fun u => u.firebase_uid == firebase_uid) with
  | none => none
  | some user_db =>
      if !user_db.enabled || !(user_db.role == UserRole.police) then none
      else
        let police_profile :=
          dir.police_profiles.find? (fun p => p.user_id == user_db.user_id)
        some { user_id := user_db.user_id, firebase_uid := user_db.firebase_uid,
               name := user_db.name, dni := user_db.dni, email := user_db.email,
               phone := user_db.phone, role := user_db.role,
               enabled := user_db.enabled, is_admin := user_db.is_admin,
               created_at := user_db.created_at, updated_at := user_db.updated_at,
               badge_number := police_profile.bind (fun p => p.badge_number),
               rank := police_profile.bind (fun p => p.rank),
               department := police_profile.bind (fun p => p.department),
               station := police_profile.bind (fun p => p.station),
               years_service := police_profile.bind (fun p => p.years_service) }

/-- Outcome of `auth.verify_id_token` as observed by the callers in
`src/auth/authorization.py`: a decoded token with a `uid`, a falsy decoded
value, or a raised exception. -/
inductive TokenResult where
  | valid (uid : String)
  | emptyToken
  | raises
deriving DecidableEq, Repr

/-- An HTTPException as raised by the authorization service: status code and
detail string. -/
structure HTTPError where
  status_code : Nat
  detail : String
deriving DecidableEq, Repr

/-- `AuthorizationService.verify_token_and_get_user` from
`src/auth/authorization.py`: verify the token, look the user up by the
decoded uid, reject disabled users. A raised verification exception is
caught and mapped to the generic 401. -/
def verify_token_and_get_user (dir : UserDirectory) (tok : TokenResult) :
    Except HTTPError User :=
  match tok with
  | .raises => .error ⟨401, "Invalid authentication credentials"⟩
  | .emptyToken => .error ⟨401, "Invalid authentication credentials"⟩
  | .valid uid =>
      match get_user_by_firebase_uid dir uid with
      | none => .error ⟨401, "User not found"⟩
      | some user =>
          if !user.enabled then .error ⟨401, "User account is disabled"⟩
          else .ok user

/-- `AuthorizationService.verify_doctor` from `src/auth/authorization.py`. -/
def verify_doctor (dir : UserDirectory) (tok : TokenResult) :
    Except HTTPError Doctor :=
  match tok with
  | .raises => .error ⟨401, "Invalid authentication credentials"⟩
  | .emptyToken => .error ⟨401, "Invalid authentication credentials"⟩
  | .valid uid =>
      match get_doctor_by_firebase_uid dir uid with
      | none => .error ⟨403, "Access denied: Doctor role required"⟩
      | some doctor => .ok doctor

/-- `AuthorizationService.verify_police` from `src/auth/authorization.py`. -/
def verify_police (dir : UserDirectory) (tok : TokenResult) :
    Except HTTPError Police :=
  match tok with
  | .raises => .error ⟨401, "Invalid authentication credentials"⟩
  | .emptyToken => .error ⟨401, "Invalid authentication credentials"⟩
  | .valid uid =>
      match get_police_by_firebase_uid dir uid with
      | none => .error ⟨403, "Access denied: Police role required"⟩
      | some police => .ok police

/-- `AuthorizationService.verify_admin` from `src/auth/authorization.py`. -/
def verify_admin (dir : UserDirectory) (tok : TokenResult) :
    Except HTTPError User :=
  match verify_token_and_get_user dir tok with
  | .error e => .error e
  | .ok user =>
      if !user.is_admin then
        .error ⟨403, "Access denied: Administrator role required"⟩
      else .ok user

/-- Python `str(["a", "b"])` rendering used by the f-string in
`verify_roles` (list of single-quoted strings). -/
def pyStrListRepr (xs : List String) : String :=
  "[" ++ String.intercalate ", " (xs.map (fun s => "\x27" ++ s ++ "\x27")) ++ "]"

/-- The detail message of the 403 raised by `verify_roles`. -/
def rolesRequiredDetail (allowed_roles : List UserRole) : String :=
  "Access denied: One of these roles required: " ++
    pyStrListRepr (allowed_roles.map UserRole.value)

/-- `AuthorizationService.verify_roles` from `src/auth/authorization.py`. -/
def verify_roles (dir : UserDirectory) (allowed_roles : List UserRole)
    (tok : TokenResult) : Except HTTPError User :=
  match verify_token_and_get_user dir tok with
  | .error e => .error e
  | .ok user =>
      if user.role ∈ allowed_roles then .ok user
      else .error ⟨403, rolesRequiredDetail allowed_roles⟩

/-- Patient blood analysis record, from `src/models/patient.py`
(`BloodAnalysis`). Floats are modelled as rationals, the creation
timestamp as a tick. -/
structure BloodAnalysis where
  analysis_id : String
  date_performed : Nat
  red_blood_cells : ℚ
  hemoglobin : ℚ
  hematocrit : ℚ
  platelets : Nat
  lymphocytes : ℚ
  glucose : Nat
  cholesterol : Nat
  urea : Nat
  cocaine : ℚ
  alcohol : ℚ
  mdma : ℚ
  fentanyl : ℚ
  performed_by_dni : Option String
  performed_by_name : Option String
  notes : Option String
  visit_related_id : Option String
deriving DecidableEq, Repr

/-- Radiology study record, from `src/models/patient.py` (`RadiologyStudy`). -/
structure RadiologyStudy where
  study_id : String
  date_performed : Nat
  study_type : String
  body_part : String
  findings : String
  image_url : Option String
  performed_by_dni : Option String
  performed_by_name : Option String
  visit_related_id : Option String
deriving DecidableEq, Repr

/-- Medical history aggregate, from `src/models/patient.py`
(`MedicalHistory`). -/
structure MedicalHistory where
  allergies : List String
  medical_notes : String
  major_surgeries : List String
  current_medications : List String
  chronic_conditions : List String
  family_history : String
  blood_analyses : List BloodAnalysis
  radiology_studies : List RadiologyStudy
  last_updated : Nat
  updated_by : Option String
deriving DecidableEq, Repr

/-- Patient gender, from `src/schemas/enums.py` (`Gender`). -/
inductive Gender where
  | male
  | female
  | other
deriving DecidableEq, Repr

/-- Patient document, from `src/models/patient.py` (`PatientDB`); the blood
type is kept abstract as a string since no claim inspects it. -/
structure PatientDB where
  dni : String
  name : String
  age : Nat
  sex : Gender
  phone : Option String
  blood_type : String
  medical_history : MedicalHistory
  enabled : Bool
  disabled_by : Option String
  created_at : Nat
  updated_at : Nat
  created_by : Option String
  last_updated_by : Option String
  discapacity_level : Option Nat
deriving DecidableEq, Repr

/-- Python truthiness of an `Optional[str]`: `None` and the empty string
are falsy. -/
def optStrTruthy : Option String → Bool
  | none => false
  | some s => !(s == "")

/-- `PatientDB.update_timestamp` from `src/models/patient.py`. -/
def PatientDB.update_timestamp (p : PatientDB) (updated_by : Option String)
    (now : Nat) : PatientDB :=
  let p := { p with updated_at := now }
  if optStrTruthy updated_by then { p with last_updated_by := updated_by }
  else p

/-- `PatientDB.add_blood_analysis` from `src/models/patient.py`: set the
back-reference when a (truthy) visit id is given, append to the history,
refresh the timestamps. The Python method mutates the analysis argument,
so the mutated analysis is returned alongside the patient. -/
def PatientDB.add_blood_analysis (p : PatientDB) (analysis : BloodAnalysis)
    (visit_id : Option String) (now : Nat) : PatientDB × BloodAnalysis :=
  let analysis :=
    if optStrTruthy visit_id then { analysis with visit_related_id := visit_id }
    else analysis
  let p := { p with medical_history :=
    { p.medical_history with
        blood_analyses := p.medical_history.blood_analyses ++ [analysis],
        last_updated := now } }
  (p.update_timestamp analysis.performed_by_dni now, analysis)

/-- `PatientDB.add_radiology_study` from `src/models/patient.py`. -/
def PatientDB.add_radiology_study (p : PatientDB) (study : RadiologyStudy)
    (visit_id : Option String) (now : Nat) : PatientDB × RadiologyStudy :=
  let study :=
    if optStrTruthy visit_id then { study with visit_related_id := visit_id }
    else study
  let p := { p with medical_history :=
    { p.medical_history with
        radiology_studies := p.medical_history.radiology_studies ++ [study],
        last_updated := now } }
  (p.update_timestamp study.performed_by_dni now, study)

/-- `PatientDB.get_blood_analyses_by_visit` from `src/models/patient.py`:
filter the aggregate by `visit_related_id == visit_id` (Python compares an
`Optional[str]` to a `str`, so `None` never matches). -/
def PatientDB.get_blood_analyses_by_visit (p : PatientDB) (visit_id : String) :
    List BloodAnalysis :=
  p.medical_history.blood_analyses.filter
    (fun analysis =>
      match analysis.visit_related_id with
      | some v => v == visit_id
      | none => false)

/-- `PatientDB.get_radiology_studies_by_visit` from `src/models/patient.py`. -/
def PatientDB.get_radiology_studies_by_visit (p : PatientDB) (visit_id : String) :
    List RadiologyStudy :=
  p.medical_history.radiology_studies.filter
    (fun study =>
      match study.visit_related_id with
      | some v => v == visit_id
      | none => false)

/-- Visit status, from `src/schemas/enums.py` (`VisitStatus`). -/
inductive VisitStatus where
  | admission
  | discharge
deriving DecidableEq, Repr

/-- Visit document, from `src/models/visit.py` (`VisitDB`). The embedded
sub-record lists untouched by the modelled operations (diagnoses,
procedures, evolutions, prescriptions, vital signs, orders, notes) are
omitted: `add_blood_analysis`, `add_radiology_study` and the synchronizer
never read or write them. -/
structure VisitDB where
  visit_id : String
  patient_dni : String
  reason : String
  location : String
  visit_status : VisitStatus
  priority_level : Nat
  attending_doctor_dni : String
  referring_doctor_dni : Option String
  blood_analyses : List BloodAnalysis
  radiology_studies : List RadiologyStudy
  created_at : Nat
  updated_at : Nat
  admission_date : Nat
  discharge_date : Option Nat
  created_by : Option String
  last_updated_by : Option String
  is_completed : Bool
deriving DecidableEq, Repr

/-- `VisitDB.update_timestamp` from `src/models/visit.py`. -/
def VisitDB.update_timestamp (v : VisitDB) (updated_by : Option String)
    (now : Nat) : VisitDB :=
  let v := { v with updated_at := now }
  if optStrTruthy updated_by then { v with last_updated_by := updated_by }
  else v

/-- `VisitDB.add_blood_analysis` from `src/models/visit.py`. The Python
method mutates the analysis argument (author override, back-reference to
this visit), so the mutated analysis is returned alongside the visit. -/
def VisitDB.add_blood_analysis (v : VisitDB) (analysis : BloodAnalysis)
    (performed_by : Option String) (now : Nat) : VisitDB × BloodAnalysis :=
  let analysis :=
    if optStrTruthy performed_by then
      { analysis with performed_by_dni := performed_by }
    else analysis
  let analysis := { analysis with visit_related_id := some v.visit_id }
  let v := { v with blood_analyses := v.blood_analyses ++ [analysis] }
  (v.update_timestamp performed_by now, analysis)

/-- `VisitDB.add_radiology_study` from `src/models/visit.py`. -/
def VisitDB.add_radiology_study (v : VisitDB) (study : RadiologyStudy)
    (performed_by : Option String) (now : Nat) : VisitDB × RadiologyStudy :=
  let study :=
    if optStrTruthy performed_by then
      { study with performed_by_dni := performed_by }
    else study
  let study := { study with visit_related_id := some v.visit_id }
  let v := { v with radiology_studies := v.radiology_studies ++ [study] }
  (v.update_timestamp performed_by now, study)

/-- `BloodAnalysisCreate` from `src/schemas/patient.py`. -/
structure BloodAnalysisCreate where
  red_blood_cells : ℚ
  hemoglobin : ℚ
  hematocrit : ℚ
  platelets : Nat
  lymphocytes : ℚ
  glucose : Nat
  cholesterol : Nat
  urea : Nat
  cocaine : ℚ
  alcohol : ℚ
  mdma : ℚ
  fentanyl : ℚ
  notes : Option String
deriving DecidableEq, Repr

/-- `RadiologyStudyCreate` from `src/schemas/patient.py`. -/
structure RadiologyStudyCreate where
  study_type : String
  body_part : String
  findings : String
  image_url : Option String
deriving DecidableEq, Repr

/-- `BloodAnalysisResponse` from `src/schemas/patient.py`. -/
structure BloodAnalysisResponse where
  red_blood_cells : ℚ
  hemoglobin : ℚ
  hematocrit : ℚ
  platelets : Nat
  lymphocytes : ℚ
  glucose : Nat
  cholesterol : Nat
  urea : Nat
  cocaine : ℚ
  alcohol : ℚ
  mdma : ℚ
  fentanyl : ℚ
  notes : Option String
  analysis_id : String
  date_performed : Nat
  performed_by_dni : Option String
  performed_by_name : Option String
  visit_related_id : Option String
deriving DecidableEq, Repr

/-- `RadiologyStudyResponse` from `src/schemas/patient.py`. -/
structure RadiologyStudyResponse where
  study_type : String
  body_part : String
  findings : String
  image_url : Option String
  study_id : String
  date_performed : Nat
  performed_by_dni : Option String
  performed_by_name : Option String
  visit_related_id : Option String
deriving DecidableEq, Repr

/-- The field-by-field response construction repeated in
`src/services/visits.py` and `src/services/patient.py` after an analysis
is appended. -/
def bloodAnalysisResponseOf (a : BloodAnalysis) : BloodAnalysisResponse :=
  { analysis_id := a.analysis_id, date_performed := a.date_performed,
    red_blood_cells := a.red_blood_cells, hemoglobin := a.hemoglobin,
    hematocrit := a.hematocrit, platelets := a.platelets,
    lymphocytes := a.lymphocytes, glucose := a.glucose,
    cholesterol := a.cholesterol, urea := a.urea, cocaine := a.cocaine,
    alcohol := a.alcohol, mdma := a.mdma, fentanyl := a.fentanyl,
    performed_by_dni := a.performed_by_dni,
    performed_by_name := a.performed_by_name, notes := a.notes,
    visit_related_id := a.visit_related_id }

/-- The analogous response construction for radiology studies. -/
def radiologyStudyResponseOf (s : RadiologyStudy) : RadiologyStudyResponse :=
  { study_id := s.study_id, date_performed := s.date_performed,
    study_type := s.study_type, body_part := s.body_part,
    findings := s.findings, image_url := s.image_url,
    performed_by_dni := s.performed_by_dni,
    performed_by_name := s.performed_by_name,
    visit_related_id := s.visit_related_id }

/-- A write against the document store, in execution order: the visit
collection update or the patient collection update performed by the
repositories in `src/services/visits.py` / `src/services/patient.py`. -/
inductive WriteEvent where
  | visitWrite (visit_id : String)
  | patientWrite (dni : String)
deriving DecidableEq, Repr

/-- The document store touched by the cross-record synchronizer: the visit
and patient collections, plus the ordered log of writes performed. -/
structure ClinicState where
  visits : List VisitDB
  patients : List PatientDB
  trace : List WriteEvent
deriving Repr

/-- `VisitRepository.get_by_id` from `src/services/visits.py`. -/
def visitGetById (st : ClinicState) (visit_id : String) : Option VisitDB :=
  st.visits.find? (fun v => v.visit_id == visit_id)

/-- `VisitRepository.update`: replace the visit document keyed by its id. -/
def visitRepoUpdate (st : ClinicState) (v : VisitDB) : ClinicState :=
  { st with
      visits := st.visits.map (fun w => if w.visit_id == v.visit_id then v else w),
      trace := st.trace ++ [WriteEvent.visitWrite v.visit_id] }

/-- `PatientRepository.get_by_dni` from `src/services/patient.py`. -/
def patientGetByDni (st : ClinicState) (dni : String) : Option PatientDB :=
  st.patients.find? (fun p => p.dni == dni)

/-- `PatientRepository.update`: replace the patient document keyed by dni. -/
def patientRepoUpdate (st : ClinicState) (p : PatientDB) : ClinicState :=
  { st with
      patients := st.patients.map (fun q => if q.dni == p.dni then p else q),
      trace := st.trace ++ [WriteEvent.patientWrite p.dni] }

/-- `VisitService.add_blood_analysis` from `src/services/visits.py`:
look the visit up, build the analysis with the visit back-reference and a
fresh id, append it via the model method, persist the visit. -/
def visitAddBloodAnalysis (st : ClinicState) (visit_id : String)
    (d : BloodAnalysisCreate) (performed_by_dni performed_by_name : Option String)
    (fresh_id : String) (now : Nat) :
    Option BloodAnalysisResponse × ClinicState :=
  match visitGetById st visit_id with
  | none => (none, st)
  | some visit_db =>
      let analysis : BloodAnalysis :=
        { analysis_id := fresh_id, date_performed := now,
          red_blood_cells := d.red_blood_cells, hemoglobin := d.hemoglobin,
          hematocrit := d.hematocrit, platelets := d.platelets,
          lymphocytes := d.lymphocytes, glucose := d.glucose,
          cholesterol := d.cholesterol, urea := d.urea, cocaine := d.cocaine,
          alcohol := d.alcohol, mdma := d.mdma, fentanyl := d.fentanyl,
          notes := d.notes, performed_by_dni := performed_by_dni,
          performed_by_name := performed_by_name,
          visit_related_id := some visit_id }
      let (visit_db, analysis) :=
        visit_db.add_blood_analysis analysis performed_by_dni now
      (some (bloodAnalysisResponseOf analysis), visitRepoUpdate st visit_db)

/-- `VisitService.add_radiology_study` from `src/services/visits.py`. -/
def visitAddRadiologyStudy (st : ClinicState) (visit_id : String)
    (d : RadiologyStudyCreate) (performed_by_dni performed_by_name : Option String)
    (fresh_id : String) (now : Nat) :
    Option RadiologyStudyResponse × ClinicState :=
  match visitGetById st visit_id with
  | none => (none, st)
  | some visit_db =>
      let study : RadiologyStudy :=
        { study_id := fresh_id, date_performed := now,
          study_type := d.study_type, body_part := d.body_part,
          findings := d.findings, image_url := d.image_url,
          performed_by_dni := performed_by_dni,
          performed_by_name := performed_by_name,
          visit_related_id := some visit_id }
      let (visit_db, study) :=
        visit_db.add_radiology_study study performed_by_dni now
      (some (radiologyStudyResponseOf study), visitRepoUpdate st visit_db)

/-- `PatientService.add_blood_analysis` from `src/services/patient.py`:
look the patient up (rejecting missing or disabled records), build the
analysis without a back-reference, append it via the model method (which
sets the back-reference when a visit id is passed), persist the patient. -/
def patientAddBloodAnalysis (st : ClinicState) (patient_dni : String)
    (d : BloodAnalysisCreate) (performed_by_dni performed_by_name : Option String)
    (visit_id : Option String) (fresh_id : String) (now : Nat) :
    Option BloodAnalysisResponse × ClinicState :=
  match patientGetByDni st patient_dni with
  | none => (none, st)
  | some patient_db =>
      if !patient_db.enabled then (none, st)
      else
        let analysis : BloodAnalysis :=
          { analysis_id := fresh_id, date_performed := now,
            red_blood_cells := d.red_blood_cells, hemoglobin := d.hemoglobin,
            hematocrit := d.hematocrit, platelets := d.platelets,
            lymphocytes := d.lymphocytes, glucose := d.glucose,
            cholesterol := d.cholesterol, urea := d.urea, cocaine := d.cocaine,
            alcohol := d.alcohol, mdma := d.mdma, fentanyl := d.fentanyl,
            notes := d.notes, performed_by_dni := performed_by_dni,
            performed_by_name := performed_by_name, visit_related_id := none }
        let (patient_db, analysis) :=
          patient_db.add_blood_analysis analysis visit_id now
        (some (bloodAnalysisResponseOf analysis), patientRepoUpdate st patient_db)

/-- `PatientService.add_radiology_study` from `src/services/patient.py`. -/
def patientAddRadiologyStudy (st : ClinicState) (patient_dni : String)
    (d : RadiologyStudyCreate) (performed_by_dni performed_by_name : Option String)
    (visit_id : Option String) (fresh_id : String) (now : Nat) :
    Option RadiologyStudyResponse × ClinicState :=
  match patientGetByDni st patient_dni with
  | none => (none, st)
  | some patient_db =>
      if !patient_db.enabled then (none, st)
      else
        let study : RadiologyStudy :=
          { study_id := fresh_id, date_performed := now,
            study_type := d.study_type, body_part := d.body_part,
            findings := d.findings, image_url := d.image_url,
            performed_by_dni := performed_by_dni,
            performed_by_name := performed_by_name, visit_related_id := none }
        let (patient_db, study) :=
          patient_db.add_radiology_study study visit_id now
        (some (radiologyStudyResponseOf study), patientRepoUpdate st patient_db)

/-- `VisitService.add_blood_analysis_with_patient_sync` from
`src/services/visits.py`: look the visit up, write the analysis to the
visit first, then mirror it into the owning patient aggregate; a failed
patient-side write is logged and the visit-side result is still returned.
The two constructed copies carry distinct fresh ids. -/
def add_blood_analysis_with_patient_sync (st : ClinicState) (visit_id : String)
    (d : BloodAnalysisCreate) (performed_by_dni performed_by_name : Option String)
    (visit_fresh_id patient_fresh_id : String) (now : Nat) :
    Option BloodAnalysisResponse × ClinicState :=
  match visitGetById st visit_id with
  | none => (none, st)
  | some visit_db =>
      let (visit_result, st1) :=
        visitAddBloodAnalysis st visit_id d performed_by_dni performed_by_name
          visit_fresh_id now
      match visit_result with
      | none => (none, st1)
      | some vr =>
          let (patient_result, st2) :=
            patientAddBloodAnalysis st1 visit_db.patient_dni d performed_by_dni
              performed_by_name (some visit_id) patient_fresh_id now
          match patient_result with
          | some _ => (some vr, st2)
          | none => (some vr, st2)

/-- `VisitService.add_radiology_study_with_patient_sync` from
`src/services/visits.py`. -/
def add_radiology_study_with_patient_sync (st : ClinicState) (visit_id : String)
    (d : RadiologyStudyCreate) (performed_by_dni performed_by_name : Option String)
    (visit_fresh_id patient_fresh_id : String) (now : Nat) :
    Option RadiologyStudyResponse × ClinicState :=
  match visitGetById st visit_id with
  | none => (none, st)
  | some visit_db =>
      let (visit_result, st1) :=
        visitAddRadiologyStudy st visit_id d performed_by_dni performed_by_name
          visit_fresh_id now
      match visit_result with
      | none => (none, st1)
      | some vr =>
          let (patient_result, st2) :=
            patientAddRadiologyStudy st1 visit_db.patient_dni d performed_by_dni
              performed_by_name (some visit_id) patient_fresh_id now
          match patient_result with
          | some _ => (some vr, st2)
          | none => (some vr, st2)

/-- Exam question, from `src/models/exam.py` (`QuestionDB`). -/
structure QuestionDB where
  question_id : String
  question : String
  options : List String
  correct_option : String
deriving DecidableEq, Repr

/-- Exam category, from `src/models/exam.py` (`CategoryDB`). -/
structure CategoryDB where
  category_id : String
  name : String
  description : String
  questions : List QuestionDB
deriving DecidableEq, Repr

/-- Exam document, from `src/models/exam.py` (`ExamDB`). -/
structure ExamDB where
  exam_id : String
  name : String
  max_error_allowed : Int
  description : String
  categories : List CategoryDB
  enabled : Bool
  disabled_by : Option String
  created_at : Nat
  updated_at : Nat
  created_by : Option String
  updated_by : Option String
deriving DecidableEq, Repr

/-- `ExamDB.get_all_questions` from `src/models/exam.py`: the flattened
question list over all categories, in category order. -/
def ExamDB.get_all_questions (e : ExamDB) : List QuestionDB :=
  e.categories.foldl (fun all_questions c => all_questions ++ c.questions) []

/-- Exam result status, from `src/schemas/enums.py` (`ExamResultStatus`). -/
inductive ExamResultStatus where
  | pending
  | passed
  | failed
  | cancelled
deriving DecidableEq, Repr

/-- Stored answer, from `src/models/exam.py` (`QuestionAnswerDB`). -/
structure QuestionAnswerDB where
  question_id : String
  selected_option : String
  correct_option : String
  is_correct : Bool
deriving DecidableEq, Repr

/-- Exam result document, from `src/models/exam.py` (`ExamResultDB`). -/
structure ExamResultDB where
  result_id : String
  exam_id : String
  exam_name : String
  patient_dni : String
  patient_name : String
  answers : List QuestionAnswerDB
  total_questions : Nat
  correct_answers : Nat
  incorrect_answers : Nat
  score_percentage : ℚ
  status : ExamResultStatus
  is_approved : Bool
  examiner_dni : String
  examiner_name : String
  examiner_role : String
  notes : Option String
  observations : Option String
  exam_date : Nat
  created_at : Nat
  updated_at : Nat
deriving DecidableEq, Repr

/-- `ExamResultDB.calculate_results` from `src/models/exam.py`: count the
correct answers, derive the incorrect count and score percentage, and set
the pass/fail verdict from the allowed-error threshold. -/
def ExamResultDB.calculate_results (r : ExamResultDB)
    (max_errors_allowed : Int) : ExamResultDB :=
  let correct_answers := (r.answers.filter (fun answer => answer.is_correct)).length
  let incorrect_answers := r.answers.length - correct_answers
  let total_questions := r.answers.length
  let score_percentage : ℚ :=
    if total_questions > 0 then
      ((correct_answers : ℚ) / (total_questions : ℚ)) * 100
    else 0
  let is_approved := (incorrect_answers : Int) ≤ max_errors_allowed
  { r with
      correct_answers := correct_answers,
      incorrect_answers := incorrect_answers,
      total_questions := total_questions,
      score_percentage := score_percentage,
      is_approved := is_approved,
      status :=
        if is_approved then ExamResultStatus.passed else ExamResultStatus.failed }

/-- Submitted answer, from `src/schemas/exam.py` (`QuestionAnswer`). -/
structure QuestionAnswer where
  question_id : String
  selected_option : String
deriving DecidableEq, Repr

/-- Exam submission, from `src/schemas/exam.py` (`ExamSubmission`). -/
structure ExamSubmission where
  exam_id : String
  patient_dni : String
  answers : List QuestionAnswer
  notes : Option String
  observations : Option String
deriving DecidableEq, Repr

/-- `ExamResultResponse` from `src/schemas/exam.py`. -/
structure ExamResultResponse where
  result_id : String
  exam_id : String
  exam_name : String
  patient_dni : String
  patient_name : String
  total_questions : Nat
  correct_answers : Nat
  incorrect_answers : Nat
  score_percentage : ℚ
  status : ExamResultStatus
  is_approved : Bool
  examiner_dni : String
  examiner_name : String
  examiner_role : String
  notes : Option String
  observations : Option String
  exam_date : Nat
  created_at : Nat
deriving DecidableEq, Repr

/-- `ExamResultService._result_db_to_response` from
`src/services/exam_results.py`. -/
def result_db_to_response (r : ExamResultDB) : ExamResultResponse :=
  { result_id := r.result_id, exam_id := r.exam_id, exam_name := r.exam_name,
    patient_dni := r.patient_dni, patient_name := r.patient_name,
    total_questions := r.total_questions, correct_answers := r.correct_answers,
    incorrect_answers := r.incorrect_answers,
    score_percentage := r.score_percentage, status := r.status,
    is_approved := r.is_approved, examiner_dni := r.examiner_dni,
    examiner_name := r.examiner_name, examiner_role := r.examiner_role,
    notes := r.notes, observations := r.observations,
    exam_date := r.exam_date, created_at := r.created_at }

/-- API patient schema, from `src/schemas/patient.py` (`Patient`). -/
structure Patient where
  name : String
  dni : String
  age : Nat
  sex : Gender
  phone : Option String
  blood_type : String
  created_at : Nat
  updated_at : Nat
deriving DecidableEq, Repr

/-- `PatientService._patient_db_to_patient` from `src/services/patient.py`. -/
def patient_db_to_patient (p : PatientDB) : Patient :=
  { name := p.name, dni := p.dni, age := p.age, sex := p.sex,
    phone := p.phone, blood_type := p.blood_type,
    created_at := p.created_at, updated_at := p.updated_at }

/-- `PatientService.get_patient` from `src/services/patient.py`: the
repository lookup by dni, filtered to enabled patients. -/
def get_patient (patients : List PatientDB) (patient_dni : String) :
    Option Patient :=
  match patients.find? (fun p => p.dni == patient_dni) with
  | some patient_db =>
      if patient_db.enabled then some (patient_db_to_patient patient_db)
      else none
  | none => none

/-- The store touched by the exam-result service: the exam, patient and
exam-result collections. -/
structure ExamStore where
  exams : List ExamDB
  patients : List PatientDB
  exam_results : List ExamResultDB
deriving Repr

/-- `ExamRepository.get_by_id` from `src/services/exam.py`. -/
def examGetById (st : ExamStore) (exam_id : String) : Option ExamDB :=
  st.exams.find? (fun e => e.exam_id == exam_id)

/-- `ExamRepository.update` from `src/services/exam.py`: write the exam
document keyed by its id; every exam edit (`update_exam`, `delete_exam`,
`add_category_to_exam`) persists through this write. -/
def examRepoUpdate (st : ExamStore) (e : ExamDB) : ExamStore :=
  { st with exams := st.exams.map (fun f => if f.exam_id == e.exam_id then e else f) }

/-- Lookup in the Python dict comprehension
`{q.question_id: q for q in all_questions}`: for a duplicated id the later
question overwrites the earlier one. -/
def question_dict_lookup (all_questions : List QuestionDB) (qid : String) :
    Option QuestionDB :=
  all_questions.reverse.find? (fun q => q.question_id == qid)

/-- One iteration of the answer-processing loop of
`ExamResultService.submit_exam_result`: an answer whose question id is
unknown to the exam is skipped (`continue`), a matched answer is marked
correct by exact match against the stored correct option. -/
def process_answer (exam_db : ExamDB) (answer : QuestionAnswer) :
    Option QuestionAnswerDB :=
  match question_dict_lookup exam_db.get_all_questions answer.question_id with
  | none => none
  | some question =>
      some { question_id := answer.question_id,
             selected_option := answer.selected_option,
             correct_option := question.correct_option,
             is_correct := answer.selected_option == question.correct_option }

/-- The full answer-processing loop of
`ExamResultService.submit_exam_result`. -/
def process_answers (exam_db : ExamDB) (answers : List QuestionAnswer) :
    List QuestionAnswerDB :=
  answers.filterMap (process_answer exam_db)

/-- `ExamResultService.submit_exam_result` from
`src/services/exam_results.py`: reject a missing or disabled exam and a
missing (or disabled) patient, process the answers against the flattened
question set, compute the scores, persist the result. -/
def submit_exam_result (st : ExamStore) (submission : ExamSubmission)
    (examiner_dni examiner_name examiner_role : String)
    (fresh_id : String) (now : Nat) :
    Option ExamResultResponse × ExamStore :=
  match examGetById st submission.exam_id with
  | none => (none, st)
  | some exam_db =>
      if !exam_db.enabled then (none, st)
      else
        match get_patient st.patients submission.patient_dni with
        | none => (none, st)
        | some patient =>
            let processed_answers := process_answers exam_db submission.answers
            let result_db : ExamResultDB :=
              { result_id := fresh_id, exam_id := submission.exam_id,
                exam_name := exam_db.name,
                patient_dni := submission.patient_dni,
                patient_name := patient.name, answers := processed_answers,
                total_questions := processed_answers.length,
                correct_answers := 0, incorrect_answers := 0,
                score_percentage := 0, status := ExamResultStatus.pending,
                is_approved := false, examiner_dni := examiner_dni,
                examiner_name := examiner_name, examiner_role := examiner_role,
                notes := submission.notes, observations := submission.observations,
                exam_date := now, created_at := now, updated_at := now }
            let result_db := result_db.calculate_results exam_db.max_error_allowed
            (some (result_db_to_response result_db),
             { st with exam_results := st.exam_results ++ [result_db] })

/-! ### Demo fixtures used by witness theorems -/

/-- An enabled doctor-role user record. -/
def demoDoctorUser : UserDB :=
  { user_id := "u-doc", firebase_uid := "fb-doc", name := "Ana Gomez",
    dni := "11111111A", email := "ana@clinic.test", phone := none,
    role := UserRole.doctor, enabled := true, is_admin := false,
    created_at := 0, updated_at := 0 }

/-- A disabled user record (doctor role). -/
def demoDisabledUser : UserDB :=
  { user_id := "u-dis", firebase_uid := "fb-dis", name := "Ben Ruiz",
    dni := "22222222B", email := "ben@clinic.test", phone := none,
    role := UserRole.doctor, enabled := false, is_admin := false,
    created_at := 0, updated_at := 0 }

/-- An enabled police-role user record. -/
def demoPoliceUser : UserDB :=
  { user_id := "u-pol", firebase_uid := "fb-pol", name := "Cara Diaz",
    dni := "33333333C", email := "cara@pd.test", phone := none,
    role := UserRole.police, enabled := true, is_admin := false,
    created_at := 0, updated_at := 0 }

/-- A user directory holding the three demo users and no role profiles. -/
def demoDir : UserDirectory :=
  { users := [demoDoctorUser, demoDisabledUser, demoPoliceUser],
    doctor_profiles := [], police_profiles := [] }

/-! ### C6 — role-set authorization is monotone -/

/-- C6: if `verify_roles` succeeds for the allowed-role set `S`, it succeeds
with the same principal for the set extended with any additional role `x`,
because the check is membership of the principal role in the allowed
list. -/
theorem verify_roles_monotone (dir : UserDirectory) (S : List UserRole)
    (x : UserRole) (tok : TokenResult) (u : User)
    (h : verify_roles dir S tok = Except.ok u) :
    verify_roles dir (S.insert x) tok = Except.ok u := by
  unfold verify_roles at h ⊢
  cases hv : verify_token_and_get_user dir tok with
  | error e =>
      simp only [hv] at h
      exact Except.noConfusion h
  | ok user =>
      simp only [hv] at h ⊢
      by_cases hm : user.role ∈ S
      · rw [if_pos hm] at h
        rw [if_pos (List.mem_insert_iff.mpr (Or.inr hm))]
        exact h
      · rw [if_neg hm] at h
        exact Except.noConfusion h

/-- Witness for C6 at a concrete directory, role set and token. -/
theorem verify_roles_monotone_witness :
    verify_roles demoDir ([UserRole.doctor].insert UserRole.police)
      (TokenResult.valid "fb-doc") = Except.ok (user_db_to_user demoDoctorUser) :=
  verify_roles_monotone demoDir [UserRole.doctor] UserRole.police
    (TokenResult.valid "fb-doc") (user_db_to_user demoDoctorUser) rfl

/-! ### C7 — disabled-user lockout -/

/-- C7: a structurally valid token whose local user record is disabled
fails `verify_token_and_get_user` with a 401; no principal is returned.
(The user-service lookup filters disabled records, so the observed detail
is the user-not-found one.) -/
theorem disabled_user_fails_authentication (dir : UserDirectory) (uid : String)
    (u : UserDB)
    (hfind : dir.users.find? (fun w => w.firebase_uid == uid) = some u)
    (hdis : u.enabled = false) :
    verify_token_and_get_user dir (TokenResult.valid uid) =
      Except.error ⟨401, "User not found"⟩ := by
  unfold verify_token_and_get_user get_user_by_firebase_uid
  simp [hfind, hdis]

/-- Witness for C7: the demo disabled user is locked out. -/
theorem disabled_user_fails_authentication_witness :
    verify_token_and_get_user demoDir (TokenResult.valid "fb-dis") =
      Except.error ⟨401, "User not found"⟩ :=
  disabled_user_fails_authentication demoDir "fb-dis" demoDisabledUser rfl rfl

/-! ### C2 — failure-detail uniformity (refuted, then amended) -/

/-- C2 counterexample: two authentication attempts failing for different
causes (token verification raises vs. unknown local user) produce
different observable error details, so the fixed-generic-message claim is
false on the code. -/
theorem auth_failure_details_differ :
    verify_token_and_get_user ⟨[], [], []⟩ TokenResult.raises =
      Except.error ⟨401, "Invalid authentication credentials"⟩ ∧
    verify_token_and_get_user ⟨[], [], []⟩ (TokenResult.valid "fb-unknown") =
      Except.error ⟨401, "User not found"⟩ ∧
    ("Invalid authentication credentials" : String) ≠ "User not found" := by
  refine ⟨rfl, rfl, ?_⟩
  decide

/-- C2 amended: every failing authentication attempt gets status 401, but
the detail splits by cause: token-verification failures yield the generic
invalid-credentials message, while an unknown local user and a disabled
local user both yield the user-not-found message (the disabled-specific
detail in the gate is unreachable because the user-service lookup already
filters disabled records). -/
theorem auth_failures_all_401_with_two_details (dir : UserDirectory)
    (tok : TokenResult) :
    (∀ e : HTTPError, verify_token_and_get_user dir tok = Except.error e →
       e.status_code = 401) ∧
    (tok = TokenResult.raises ∨ tok = TokenResult.emptyToken →
       verify_token_and_get_user dir tok =
         Except.error ⟨401, "Invalid authentication credentials"⟩) ∧
    (∀ uid, tok = TokenResult.valid uid →
       dir.users.find? (fun w => w.firebase_uid == uid) = none →
       verify_token_and_get_user dir tok =
         Except.error ⟨401, "User not found"⟩) ∧
    (∀ uid u, tok = TokenResult.valid uid →
       dir.users.find? (fun w => w.firebase_uid == uid) = some u →
       u.enabled = false →
       verify_token_and_get_user dir tok =
         Except.error ⟨401, "User not found"⟩) := by
  refine ⟨?_, ?_, ?_, ?_⟩
  · intro e he
    unfold verify_token_and_get_user at he
    cases tok with
    | raises =>
        injection he with h
        rw [← h]
    | emptyToken =>
        injection he with h
        rw [← h]
    | valid uid =>
        unfold get_user_by_firebase_uid at he
        cases hf : dir.users.find? (fun w => w.firebase_uid == uid) with
        | none =>
            simp only [hf] at he
            injection he with h
            rw [← h]
        | some u =>
            cases hu : u.enabled with
            | false =>
                simp only [hf, hu, Bool.false_eq_true, if_false] at he
                injection he with h
                rw [← h]
            | true =>
                simp [hf, hu, user_db_to_user] at he
  · intro h
    cases h with
    | inl h => rw [h]; rfl
    | inr h => rw [h]; rfl
  · intro uid htok hf
    rw [htok]
    unfold verify_token_and_get_user get_user_by_firebase_uid
    simp only [hf]
  · intro uid u htok hf hdis
    rw [htok]
    unfold verify_token_and_get_user get_user_by_firebase_uid
    simp [hf, hdis]

/-- Witness for C2 amended, instantiated at the demo directory. -/
theorem auth_failures_all_401_with_two_details_witness :
    verify_token_and_get_user demoDir (TokenResult.valid "fb-nobody") =
      Except.error ⟨401, "User not found"⟩ :=
  (auth_failures_all_401_with_two_details demoDir
    (TokenResult.valid "fb-nobody")).2.2.1 "fb-nobody" rfl rfl

/-! ### C10 — dedicated role paths collapse to Forbidden -/

/-- C10: in the dedicated doctor and police verification paths, a valid
token whose local user is unknown, disabled, or of a different role is
rejected with the 403 role-required error (never a 401), because the
role-specific lookup collapses all three conditions into a single
absent-profile outcome. -/
theorem profile_paths_reject_forbidden (dir : UserDirectory) (uid : String) :
    ((dir.users.find? (fun w => w.firebase_uid == uid) = none ∨
      ∃ u, dir.users.find? (fun w => w.firebase_uid == uid) = some u ∧
        (u.enabled = false ∨ u.role ≠ UserRole.doctor)) →
      verify_doctor dir (TokenResult.valid uid) =
        Except.error ⟨403, "Access denied: Doctor role required"⟩) ∧
    ((dir.users.find? (fun w => w.firebase_uid == uid) = none ∨
      ∃ u, dir.users.find? (fun w => w.firebase_uid == uid) = some u ∧
        (u.enabled = false ∨ u.role ≠ UserRole.police)) →
      verify_police dir (TokenResult.valid uid) =
        Except.error ⟨403, "Access denied: Police role required"⟩) := by
  constructor
  · intro h
    unfold verify_doctor get_doctor_by_firebase_uid
    rcases h with hf | ⟨u, hf, hcond⟩
    · simp only [hf]
    · have hcondb : (!u.enabled || !(u.role == UserRole.doctor)) = true := by
        rcases hcond with hdis | hrole
        · simp [hdis]
        · simp [hrole]
      simp only [hf, hcondb, if_true]
  · intro h
    unfold verify_police get_police_by_firebase_uid
    rcases h with hf | ⟨u, hf, hcond⟩
    · simp only [hf]
    · have hcondb : (!u.enabled || !(u.role == UserRole.police)) = true := by
        rcases hcond with hdis | hrole
        · simp [hdis]
        · simp [hrole]
      simp only [hf, hcondb, if_true]

/-- Witness for C10: the disabled demo user hits the doctor path 403, and
the doctor-role demo user hits the police path 403. -/
theorem profile_paths_reject_forbidden_witness :
    verify_doctor demoDir (TokenResult.valid "fb-dis") =
      Except.error ⟨403, "Access denied: Doctor role required"⟩ ∧
    verify_police demoDir (TokenResult.valid "fb-doc") =
      Except.error ⟨403, "Access denied: Police role required"⟩ :=
  ⟨(profile_paths_reject_forbidden demoDir "fb-dis").1
      (Or.inr ⟨demoDisabledUser, rfl, Or.inl rfl⟩),
   (profile_paths_reject_forbidden demoDir "fb-doc").2
      (Or.inr ⟨demoDoctorUser, rfl, Or.inr (by decide)⟩)⟩

/-! ### C3 — exam scoring arithmetic -/

/-- Every answer produced by the processing loop stores exactly the
exact-match comparison as its correctness flag. -/
theorem process_answers_is_correct_spec (exam_db : ExamDB)
    (answers : List QuestionAnswer) :
    ∀ a ∈ process_answers exam_db answers,
      a.is_correct = (a.selected_option == a.correct_option) := by
  intro a ha
  unfold process_answers at ha
  rcases List.mem_filterMap.mp ha with ⟨q, _hq, hmk⟩
  unfold process_answer at hmk
  cases hl : question_dict_lookup exam_db.get_all_questions q.question_id with
  | none => rw [hl] at hmk; exact Option.noConfusion hmk
  | some question =>
      rw [hl] at hmk
      injection hmk with h
      rw [← h]

/-- Demo exam fixtures for the exam-scoring witnesses. -/
def demoQuestion1 : QuestionDB :=
  { question_id := "q1", question := "Color of the sky?",
    options := ["blue", "green"], correct_option := "blue" }

/-- Second demo question. -/
def demoQuestion2 : QuestionDB :=
  { question_id := "q2", question := "Two plus two?",
    options := ["3", "4"], correct_option := "4" }

/-- A demo exam with one category holding the two demo questions and no
allowed errors. -/
def demoExam : ExamDB :=
  { exam_id := "ex1", name := "Basics", max_error_allowed := 0,
    description := "demo", categories :=
      [{ category_id := "c1", name := "General", description := "demo",
         questions := [demoQuestion1, demoQuestion2] }],
    enabled := true, disabled_by := none, created_at := 0, updated_at := 0,
    created_by := none, updated_by := none }

/-- A demo submission answer set: one correct, one incorrect. -/
def demoAnswers : List QuestionAnswer :=
  [{ question_id := "q1", selected_option := "blue" },
   { question_id := "q2", selected_option := "3" }]

/-- A demo pre-calculation result record holding the processed answers. -/
def demoResult0 : ExamResultDB :=
  { result_id := "r1", exam_id := "ex1", exam_name := "Basics",
    patient_dni := "P1", patient_name := "Pat", answers :=
      process_answers demoExam demoAnswers,
    total_questions := 2, correct_answers := 0, incorrect_answers := 0,
    score_percentage := 0, status := ExamResultStatus.pending,
    is_approved := false, examiner_dni := "D1", examiner_name := "Doc",
    examiner_role := "doctor", notes := none, observations := none,
    exam_date := 0, created_at := 0, updated_at := 0 }

/-- C3: for every exam and processed answer list, `calculate_results`
counts exact-match correct answers, derives the incorrect count as
total minus correct, computes the percentage as `100 * correct / total`
(0 when the total is 0), keeps it within [0, 100], and approves exactly
when the incorrect count is at most the exam's allowed-error maximum. -/
theorem exam_scoring_spec (exam_db : ExamDB) (answers : List QuestionAnswer)
    (r0 : ExamResultDB)
    (h : r0.answers = process_answers exam_db answers) :
    let r := r0.calculate_results exam_db.max_error_allowed
    r.correct_answers =
      (r0.answers.filter (fun a => a.selected_option == a.correct_option)).length ∧
    r.incorrect_answers = r.total_questions - r.correct_answers ∧
    (r.total_questions = 0 → r.score_percentage = 0) ∧
    (r.total_questions ≠ 0 →
      r.score_percentage = 100 * (r.correct_answers : ℚ) / (r.total_questions : ℚ)) ∧
    0 ≤ r.score_percentage ∧ r.score_percentage ≤ 100 ∧
    (r.is_approved = true ↔ (r.incorrect_answers : Int) ≤ exam_db.max_error_allowed) := by
  intro r
  have hfilter :
      r0.answers.filter (fun a => a.is_correct) =
        r0.answers.filter (fun a => a.selected_option == a.correct_option) := by
    apply List.filter_congr
    intro a ha
    have := process_answers_is_correct_spec exam_db answers a (h ▸ ha)
    rw [this]
  have hcorrect :
      r.correct_answers =
        (r0.answers.filter (fun a => a.selected_option == a.correct_option)).length := by
    show (r0.answers.filter (fun a => a.is_correct)).length = _
    rw [hfilter]
  have hlen_le : (r0.answers.filter (fun a => a.is_correct)).length ≤ r0.answers.length :=
    List.length_filter_le _ _
  refine ⟨hcorrect, rfl, ?_, ?_, ?_, ?_, ?_⟩
  · intro h0
    have hz : r0.answers.length = 0 := h0
    show (if r0.answers.length > 0 then
        ((((r0.answers.filter (fun a => a.is_correct)).length : ℚ)) /
          ((r0.answers.length : ℚ))) * 100 else 0) = 0
    rw [hz]
    norm_num
  · intro h0
    have hz : r0.answers.length ≠ 0 := h0
    have hpos : r0.answers.length > 0 := Nat.pos_of_ne_zero hz
    show (if r0.answers.length > 0 then
        ((((r0.answers.filter (fun a => a.is_correct)).length : ℚ)) /
          ((r0.answers.length : ℚ))) * 100 else 0) =
      100 * (((r0.answers.filter (fun a => a.is_correct)).length : ℚ)) /
        ((r0.answers.length : ℚ))
    rw [if_pos hpos]
    ring
  · show 0 ≤ (if r0.answers.length > 0 then
        ((((r0.answers.filter (fun a => a.is_correct)).length : ℚ)) /
          ((r0.answers.length : ℚ))) * 100 else 0)
    split
    · positivity
    · norm_num
  · show (if r0.answers.length > 0 then
        ((((r0.answers.filter (fun a => a.is_correct)).length : ℚ)) /
          ((r0.answers.length : ℚ))) * 100 else 0) ≤ 100
    split
    · rename_i hpos
      have hq : ((r0.answers.filter (fun a => a.is_correct)).length : ℚ) /
          ((r0.answers.length : ℚ)) ≤ 1 := by
        apply div_le_one_of_le₀
        · exact_mod_cast hlen_le
        · positivity
      linarith
    · norm_num
  · show (decide ((((r0.answers.length -
        (r0.answers.filter (fun a => a.is_correct)).length) : Nat) : Int) ≤
          exam_db.max_error_allowed) = true) ↔ _
    simp
    exact Iff.rfl

/-- Witness for C3 at the demo exam and a one-correct-one-wrong answer
set. -/
theorem exam_scoring_spec_witness :
    demoResult0.answers = process_answers demoExam demoAnswers ∧
    (let r := demoResult0.calculate_results demoExam.max_error_allowed
     r.correct_answers =
       (demoResult0.answers.filter
         (fun a => a.selected_option == a.correct_option)).length ∧
     r.incorrect_answers = r.total_questions - r.correct_answers ∧
     (r.total_questions = 0 → r.score_percentage = 0) ∧
     (r.total_questions ≠ 0 →
       r.score_percentage = 100 * (r.correct_answers : ℚ) / (r.total_questions : ℚ)) ∧
     0 ≤ r.score_percentage ∧ r.score_percentage ≤ 100 ∧
     (r.is_approved = true ↔
       (r.incorrect_answers : Int) ≤ demoExam.max_error_allowed)) :=
  ⟨rfl, exam_scoring_spec demoExam demoAnswers demoResult0 rfl⟩

/-! ### C4 — unknown question ids are silently dropped -/

/-- Dropping the elements a `filterMap` ignores does not change its
result. -/
theorem filterMap_filter_isSome {α β : Type} (f : α → Option β) (l : List α) :
    (l.filter (fun a => (f a).isSome)).filterMap f = l.filterMap f := by
  induction l with
  | nil => rfl
  | cons a l ih =>
      cases hfa : f a with
      | none => simp [List.filter_cons, List.filterMap_cons, hfa, ih]
      | some b => simp [List.filter_cons, List.filterMap_cons, hfa, ih]

/-- The length of a `filterMap` is the number of elements it keeps. -/
theorem length_filterMap_eq_length_filter {α β : Type} (f : α → Option β)
    (l : List α) :
    (l.filterMap f).length = (l.filter (fun a => (f a).isSome)).length := by
  induction l with
  | nil => rfl
  | cons a l ih =>
      cases hfa : f a with
      | none => simp [List.filter_cons, List.filterMap_cons, hfa, ih]
      | some b => simp [List.filter_cons, List.filterMap_cons, hfa, ih]

/-- An answer is kept by the processing loop exactly when its question id
resolves in the exam's flattened question dictionary. -/
theorem process_answer_isSome_iff_lookup (exam_db : ExamDB)
    (answer : QuestionAnswer) :
    (process_answer exam_db answer).isSome =
      (question_dict_lookup exam_db.get_all_questions answer.question_id).isSome := by
  unfold process_answer
  cases hl : question_dict_lookup exam_db.get_all_questions answer.question_id with
  | none => rfl
  | some question => rfl

/-- Demo medical history with no recorded observations. -/
def demoHistory : MedicalHistory :=
  { allergies := [], medical_notes := "", major_surgeries := [],
    current_medications := [], chronic_conditions := [], family_history := "",
    blood_analyses := [], radiology_studies := [], last_updated := 0,
    updated_by := none }

/-- Demo enabled patient "P1". -/
def demoPatient : PatientDB :=
  { dni := "P1", name := "Pat Lee", age := 30, sex := Gender.male,
    phone := none, blood_type := "A+", medical_history := demoHistory,
    enabled := true, disabled_by := none, created_at := 0, updated_at := 0,
    created_by := none, last_updated_by := none, discapacity_level := none }

/-- Demo exam store holding the demo exam and patient and no results. -/
def demoExamStore : ExamStore :=
  { exams := [demoExam], patients := [demoPatient], exam_results := [] }

/-- A demo submission carrying one answer with a question id unknown to
the exam. -/
def demoSubmissionUnknown : ExamSubmission :=
  { exam_id := "ex1", patient_dni := "P1",
    answers := demoAnswers ++ [{ question_id := "zz", selected_option := "x" }],
    notes := none, observations := none }

/-- C4: when the exam and patient preconditions hold, a submission is
accepted even if some answers carry question ids unknown to the exam;
those answers are dropped from scoring, the rest are processed, and the
stored `total_questions` is the number of submitted answers that matched
a question of the exam. -/
theorem submit_drops_unknown_questions (st : ExamStore)
    (submission : ExamSubmission) (exam_db : ExamDB) (patient : Patient)
    (ed en er fresh_id : String) (now : Nat)
    (hex : examGetById st submission.exam_id = some exam_db)
    (hen : exam_db.enabled = true)
    (hpat : get_patient st.patients submission.patient_dni = some patient) :
    ∃ result : ExamResultDB,
      (submit_exam_result st submission ed en er fresh_id now).1 =
        some (result_db_to_response result) ∧
      (submit_exam_result st submission ed en er fresh_id now).2.exam_results =
        st.exam_results ++ [result] ∧
      result.answers =
        process_answers exam_db (submission.answers.filter (fun a =>
          (question_dict_lookup exam_db.get_all_questions a.question_id).isSome)) ∧
      result.total_questions =
        (submission.answers.filter (fun a =>
          (question_dict_lookup exam_db.get_all_questions a.question_id).isSome)).length := by
  have hfe :
      submission.answers.filter (fun a =>
        (question_dict_lookup exam_db.get_all_questions a.question_id).isSome) =
      submission.answers.filter (fun a => (process_answer exam_db a).isSome) := by
    apply List.filter_congr
    intro a _
    rw [process_answer_isSome_iff_lookup]
  unfold submit_exam_result
  simp only [hex, hen, hpat, Bool.not_true, Bool.false_eq_true, if_false]
  refine ⟨_, rfl, rfl, ?_, ?_⟩
  · show process_answers exam_db submission.answers = _
    rw [hfe]
    unfold process_answers
    rw [filterMap_filter_isSome]
  · show (process_answers exam_db submission.answers).length = _
    rw [hfe]
    unfold process_answers
    rw [length_filterMap_eq_length_filter]

/-- Witness for C4: the demo submission with an unknown question id. -/
theorem submit_drops_unknown_questions_witness :
    examGetById demoExamStore demoSubmissionUnknown.exam_id = some demoExam ∧
    demoExam.enabled = true ∧
    get_patient demoExamStore.patients demoSubmissionUnknown.patient_dni =
      some (patient_db_to_patient demoPatient) ∧
    ∃ result : ExamResultDB,
      (submit_exam_result demoExamStore demoSubmissionUnknown "D1" "Doc"
        "doctor" "r1" 5).1 = some (result_db_to_response result) ∧
      (submit_exam_result demoExamStore demoSubmissionUnknown "D1" "Doc"
        "doctor" "r1" 5).2.exam_results = demoExamStore.exam_results ++ [result] ∧
      result.answers =
        process_answers demoExam (demoSubmissionUnknown.answers.filter (fun a =>
          (question_dict_lookup demoExam.get_all_questions a.question_id).isSome)) ∧
      result.total_questions =
        (demoSubmissionUnknown.answers.filter (fun a =>
          (question_dict_lookup demoExam.get_all_questions a.question_id).isSome)).length :=
  ⟨rfl, rfl, rfl,
   submit_drops_unknown_questions demoExamStore demoSubmissionUnknown demoExam
     (patient_db_to_patient demoPatient) "D1" "Doc" "doctor" "r1" 5 rfl rfl rfl⟩

/-! ### C9 — submit preconditions beyond the spec -/

/-- A disabled copy of the demo exam under a fresh id. -/
def demoExamDisabled : ExamDB :=
  { demoExam with
      exam_id := "ex2",
      enabled := false,
      disabled_by := some "A1" }

/-- A demo store that also holds the disabled exam. -/
def demoExamStoreWithDisabled : ExamStore :=
  { exams := [demoExam, demoExamDisabled], patients := [demoPatient],
    exam_results := [] }

/-- A demo submission referencing the disabled exam. -/
def demoSubmissionDisabledExam : ExamSubmission :=
  { exam_id := "ex2", patient_dni := "P1", answers := demoAnswers,
    notes := none, observations := none }

/-- C9: `submit_exam_result` returns no result and persists nothing when
the referenced exam is missing or disabled, and likewise when the
referenced patient is missing or disabled. -/
theorem submit_rejects_missing_or_disabled (st : ExamStore)
    (submission : ExamSubmission) (ed en er fresh_id : String) (now : Nat)
    (h : examGetById st submission.exam_id = none ∨
         (∃ e, examGetById st submission.exam_id = some e ∧ e.enabled = false) ∨
         st.patients.find? (fun p => p.dni == submission.patient_dni) = none ∨
         (∃ p, st.patients.find? (fun p => p.dni == submission.patient_dni) =
            some p ∧ p.enabled = false)) :
    submit_exam_result st submission ed en er fresh_id now = (none, st) := by
  have hgp_none :
      get_patient st.patients submission.patient_dni = none →
      submit_exam_result st submission ed en er fresh_id now = (none, st) := by
    intro hgp
    unfold submit_exam_result
    cases hex : examGetById st submission.exam_id with
    | none => simp only [hex]
    | some e =>
        cases hen : e.enabled with
        | false => simp [hex, hen]
        | true => simp [hex, hen, hgp]
  rcases h with hex | ⟨e, hex, hdis⟩ | hp | ⟨p, hp, hdis⟩
  · unfold submit_exam_result
    simp only [hex]
  · unfold submit_exam_result
    simp [hex, hdis]
  · apply hgp_none
    unfold get_patient
    simp [hp]
  · apply hgp_none
    unfold get_patient
    simp [hp, hdis]

/-- Witness for C9: submitting against the disabled demo exam fails and
leaves the store untouched. -/
theorem submit_rejects_missing_or_disabled_witness :
    examGetById demoExamStoreWithDisabled demoSubmissionDisabledExam.exam_id =
      some demoExamDisabled ∧
    demoExamDisabled.enabled = false ∧
    submit_exam_result demoExamStoreWithDisabled demoSubmissionDisabledExam
      "D1" "Doc" "doctor" "r9" 9 = (none, demoExamStoreWithDisabled) :=
  ⟨rfl, rfl,
   submit_rejects_missing_or_disabled demoExamStoreWithDisabled
     demoSubmissionDisabledExam "D1" "Doc" "doctor" "r9" 9
     (Or.inr (Or.inl ⟨demoExamDisabled, rfl, rfl⟩))⟩

/-! ### C8 — scoring is deterministic; stored results are frozen -/

/-- Inversion for a successful submission: the exam was found and enabled
and the patient lookup succeeded. -/
theorem submit_ok_inversion (st : ExamStore) (submission : ExamSubmission)
    (ed en er fresh_id : String) (now : Nat) (r : ExamResultResponse)
    (h : (submit_exam_result st submission ed en er fresh_id now).1 = some r) :
    ∃ e patient, examGetById st submission.exam_id = some e ∧
      e.enabled = true ∧
      get_patient st.patients submission.patient_dni = some patient := by
  unfold submit_exam_result at h
  cases hex : examGetById st submission.exam_id with
  | none =>
      rw [hex] at h
      exact Option.noConfusion h
  | some e =>
      cases hen : e.enabled with
      | false => simp [hex, hen] at h
      | true =>
          cases hp : get_patient st.patients submission.patient_dni with
          | none => simp [hex, hen, hp] at h
          | some patient => exact ⟨e, patient, rfl, hen, rfl⟩

/-- A demo submission whose question ids all belong to the demo exam. -/
def demoSubmission : ExamSubmission :=
  { exam_id := "ex1", patient_dni := "P1", answers := demoAnswers,
    notes := none, observations := none }

/-- A placeholder response record, used only as an `Option.getD`
fallback. -/
def placeholderResponse : ExamResultResponse :=
  { result_id := "", exam_id := "", exam_name := "", patient_dni := "",
    patient_name := "", total_questions := 0, correct_answers := 0,
    incorrect_answers := 0, score_percentage := 0,
    status := ExamResultStatus.pending, is_approved := false,
    examiner_dni := "", examiner_name := "", examiner_role := "",
    notes := none, observations := none, exam_date := 0, created_at := 0 }

/-- The response returned by the first demo submission (one of two answers
correct against a zero-error threshold). -/
def demoResponse1 : ExamResultResponse :=
  ((submit_exam_result demoExamStore demoSubmission "D1" "Doc" "doctor"
    "rA" 1).1).getD placeholderResponse

/-- C8: submitting the same answer set twice against an unchanged exam
yields two results with identical computed fields (only the generated id
and timestamps differ), and a later exam edit — any write through the exam
repository — does not alter the stored results collection. -/
theorem submit_idempotent_and_frozen (st : ExamStore)
    (submission : ExamSubmission) (ed en er id1 id2 : String) (t1 t2 : Nat)
    (r1 : ExamResultResponse)
    (h1 : (submit_exam_result st submission ed en er id1 t1).1 = some r1) :
    (∃ r2 : ExamResultResponse,
      (submit_exam_result (submit_exam_result st submission ed en er id1 t1).2
        submission ed en er id2 t2).1 = some r2 ∧
      r2.correct_answers = r1.correct_answers ∧
      r2.incorrect_answers = r1.incorrect_answers ∧
      r2.score_percentage = r1.score_percentage ∧
      r2.is_approved = r1.is_approved ∧
      r2.status = r1.status) ∧
    (∀ e : ExamDB,
      (examRepoUpdate (submit_exam_result st submission ed en er id1 t1).2
        e).exam_results =
      (submit_exam_result st submission ed en er id1 t1).2.exam_results) := by
  obtain ⟨e, patient, hex, hen, hp⟩ :=
    submit_ok_inversion st submission ed en er id1 t1 r1 h1
  have hred := h1
  unfold submit_exam_result at hred
  rw [hex] at hred
  simp only [hen, Bool.not_true, Bool.false_eq_true, if_false, hp] at hred
  injection hred with hr1
  constructor
  · unfold submit_exam_result
    unfold examGetById at hex ⊢
    simp only [hex, hen, Bool.not_true, Bool.false_eq_true, if_false, hp]
    refine ⟨_, rfl, ?_, ?_, ?_, ?_, ?_⟩ <;> rw [← hr1] <;> rfl
  · intro e2
    rfl

/-- Witness for C8 at the demo store and submission. -/
theorem submit_idempotent_and_frozen_witness :
    (submit_exam_result demoExamStore demoSubmission "D1" "Doc" "doctor"
      "rA" 1).1 = some demoResponse1 ∧
    ((∃ r2 : ExamResultResponse,
      (submit_exam_result (submit_exam_result demoExamStore demoSubmission
        "D1" "Doc" "doctor" "rA" 1).2 demoSubmission "D1" "Doc" "doctor"
        "rB" 2).1 = some r2 ∧
      r2.correct_answers = demoResponse1.correct_answers ∧
      r2.incorrect_answers = demoResponse1.incorrect_answers ∧
      r2.score_percentage = demoResponse1.score_percentage ∧
      r2.is_approved = demoResponse1.is_approved ∧
      r2.status = demoResponse1.status) ∧
    (∀ e : ExamDB,
      (examRepoUpdate (submit_exam_result demoExamStore demoSubmission "D1"
        "Doc" "doctor" "rA" 1).2 e).exam_results =
      (submit_exam_result demoExamStore demoSubmission "D1" "Doc" "doctor"
        "rA" 1).2.exam_results)) :=
  ⟨rfl,
   submit_idempotent_and_frozen demoExamStore demoSubmission "D1" "Doc"
     "doctor" "rA" "rB" 1 2 demoResponse1 rfl⟩

/-! ### C5 — record then query round-trip on the patient aggregate -/

/-- A sequence of `PatientDB.add_blood_analysis` calls under one visit
id. -/
def addBloodAnalyses (p : PatientDB) (items : List BloodAnalysis)
    (visit_id : Option String) (now : Nat) : PatientDB :=
  items.foldl (fun q a => (q.add_blood_analysis a visit_id now).1) p

/-- A sequence of `PatientDB.add_radiology_study` calls under one visit
id. -/
def addRadiologyStudies (p : PatientDB) (items : List RadiologyStudy)
    (visit_id : Option String) (now : Nat) : PatientDB :=
  items.foldl (fun q s => (q.add_radiology_study s visit_id now).1) p

/-- One `add_blood_analysis` under a truthy visit id appends exactly one
matching record to the by-visit filter. -/
theorem get_blood_analyses_by_visit_add (p : PatientDB) (a : BloodAnalysis)
    (V : String) (hV : V ≠ "") (now : Nat) :
    ((p.add_blood_analysis a (some V) now).1).get_blood_analyses_by_visit V =
      p.get_blood_analyses_by_visit V ++
        [{ a with visit_related_id := some V }] := by
  have htr : optStrTruthy (some V) = true := by
    unfold optStrTruthy
    simp [hV]
  unfold PatientDB.add_blood_analysis PatientDB.update_timestamp
    PatientDB.get_blood_analyses_by_visit
  simp [htr, List.filter_append,
    apply_ite (fun q : PatientDB => q.medical_history.blood_analyses)]

/-- One `add_radiology_study` under a truthy visit id appends exactly one
matching record to the by-visit filter. -/
theorem get_radiology_studies_by_visit_add (p : PatientDB)
    (s : RadiologyStudy) (V : String) (hV : V ≠ "") (now : Nat) :
    ((p.add_radiology_study s (some V) now).1).get_radiology_studies_by_visit V =
      p.get_radiology_studies_by_visit V ++
        [{ s with visit_related_id := some V }] := by
  have htr : optStrTruthy (some V) = true := by
    unfold optStrTruthy
    simp [hV]
  unfold PatientDB.add_radiology_study PatientDB.update_timestamp
    PatientDB.get_radiology_studies_by_visit
  simp [htr, List.filter_append,
    apply_ite (fun q : PatientDB => q.medical_history.radiology_studies)]

/-- The by-visit filter after a sequence of blood-analysis adds. -/
theorem addBloodAnalyses_get (items : List BloodAnalysis) (p : PatientDB)
    (V : String) (hV : V ≠ "") (now : Nat) :
    (addBloodAnalyses p items (some V) now).get_blood_analyses_by_visit V =
      p.get_blood_analyses_by_visit V ++
        items.map (fun a => { a with visit_related_id := some V }) := by
  induction items generalizing p with
  | nil => simp [addBloodAnalyses]
  | cons a items ih =>
      unfold addBloodAnalyses
      rw [List.foldl_cons]
      have hstep := ih ((p.add_blood_analysis a (some V) now).1)
      unfold addBloodAnalyses at hstep
      rw [hstep, get_blood_analyses_by_visit_add p a V hV now]
      simp

/-- The by-visit filter after a sequence of radiology-study adds. -/
theorem addRadiologyStudies_get (items : List RadiologyStudy) (p : PatientDB)
    (V : String) (hV : V ≠ "") (now : Nat) :
    (addRadiologyStudies p items (some V) now).get_radiology_studies_by_visit V =
      p.get_radiology_studies_by_visit V ++
        items.map (fun s => { s with visit_related_id := some V }) := by
  induction items generalizing p with
  | nil => simp [addRadiologyStudies]
  | cons s items ih =>
      unfold addRadiologyStudies
      rw [List.foldl_cons]
      have hstep := ih ((p.add_radiology_study s (some V) now).1)
      unfold addRadiologyStudies at hstep
      rw [hstep, get_radiology_studies_by_visit_add p s V hV now]
      simp

/-- C5: starting from a patient with no observations under a (nonempty)
visit id V, a sequence of adds under V round-trips: the by-visit queries
return exactly the added observations, in insertion order, each carrying
`visit_related_id = V`. -/
theorem record_then_query_roundtrip (p : PatientDB)
    (items : List BloodAnalysis) (sts : List RadiologyStudy) (V : String)
    (now : Nat) (hV : V ≠ "")
    (hb : p.get_blood_analyses_by_visit V = [])
    (hr : p.get_radiology_studies_by_visit V = []) :
    (addBloodAnalyses p items (some V) now).get_blood_analyses_by_visit V =
      items.map (fun a => { a with visit_related_id := some V }) ∧
    (∀ a ∈ (addBloodAnalyses p items (some V) now).get_blood_analyses_by_visit V,
      a.visit_related_id = some V) ∧
    (addRadiologyStudies p sts (some V) now).get_radiology_studies_by_visit V =
      sts.map (fun s => { s with visit_related_id := some V }) ∧
    (∀ s ∈ (addRadiologyStudies p sts (some V) now).get_radiology_studies_by_visit V,
      s.visit_related_id = some V) := by
  have h1 := addBloodAnalyses_get items p V hV now
  rw [hb, List.nil_append] at h1
  have h2 := addRadiologyStudies_get sts p V hV now
  rw [hr, List.nil_append] at h2
  refine ⟨h1, ?_, h2, ?_⟩
  · intro a ha
    rw [h1] at ha
    rcases List.mem_map.mp ha with ⟨b, _, hba⟩
    rw [← hba]
  · intro s hs
    rw [h2] at hs
    rcases List.mem_map.mp hs with ⟨b, _, hbs⟩
    rw [← hbs]

/-- A concrete blood-analysis record not yet tied to any visit. -/
def demoAnalysis : BloodAnalysis :=
  { analysis_id := "a1", date_performed := 3, red_blood_cells := 5,
    hemoglobin := 14, hematocrit := 42, platelets := 250000,
    lymphocytes := 30, glucose := 90, cholesterol := 180, urea := 30,
    cocaine := 0, alcohol := 0, mdma := 0, fentanyl := 0,
    performed_by_dni := some "D1", performed_by_name := some "Doc",
    notes := none, visit_related_id := none }

/-- A concrete radiology-study record not yet tied to any visit. -/
def demoStudy : RadiologyStudy :=
  { study_id := "s1", date_performed := 3, study_type := "X-Ray",
    body_part := "chest", findings := "clear", image_url := none,
    performed_by_dni := some "D1", performed_by_name := some "Doc",
    visit_related_id := none }

/-- Witness for C5 at the demo patient, one analysis and one study under
visit id V1. -/
theorem record_then_query_roundtrip_witness :
    ("V1" : String) ≠ "" ∧
    demoPatient.get_blood_analyses_by_visit "V1" = [] ∧
    demoPatient.get_radiology_studies_by_visit "V1" = [] ∧
    ((addBloodAnalyses demoPatient [demoAnalysis] (some "V1") 3).get_blood_analyses_by_visit "V1" =
      [demoAnalysis].map (fun a => { a with visit_related_id := some "V1" }) ∧
    (∀ a ∈ (addBloodAnalyses demoPatient [demoAnalysis] (some "V1") 3).get_blood_analyses_by_visit "V1",
      a.visit_related_id = some "V1") ∧
    (addRadiologyStudies demoPatient [demoStudy] (some "V1") 3).get_radiology_studies_by_visit "V1" =
      [demoStudy].map (fun s => { s with visit_related_id := some "V1" }) ∧
    (∀ s ∈ (addRadiologyStudies demoPatient [demoStudy] (some "V1") 3).get_radiology_studies_by_visit "V1",
      s.visit_related_id = some "V1")) :=
  ⟨by decide, rfl, rfl,
   record_then_query_roundtrip demoPatient [demoAnalysis] [demoStudy] "V1" 3
     (by decide) rfl rfl⟩

/-! ### C1 — visit write first, patient-side failure tolerated -/

/-- C1: on an existing visit, the synchronizer always returns the
visit-side observation record; its write log is the visit write followed
by at most one patient write (the visit write precedes any patient-side
write attempt); and when the patient-side write fails (returns no result)
no patient write is logged while the visit-side record is still returned.
Both the blood-analysis and the radiology-study synchronizers satisfy
this. -/
theorem sync_visit_write_first_and_patient_failure_tolerated
    (st : ClinicState) (visit_id : String) (v : VisitDB)
    (d : BloodAnalysisCreate) (rd : RadiologyStudyCreate)
    (pbd pbn : Option String) (f1 f2 g1 g2 : String) (now : Nat)
    (hfind : visitGetById st visit_id = some v) :
    ((∃ vr, (add_blood_analysis_with_patient_sync st visit_id d pbd pbn
        f1 f2 now).1 = some vr) ∧
     (add_blood_analysis_with_patient_sync st visit_id d pbd pbn f1 f2 now).1 =
       (visitAddBloodAnalysis st visit_id d pbd pbn f1 now).1 ∧
     (∃ tail,
       (add_blood_analysis_with_patient_sync st visit_id d pbd pbn
          f1 f2 now).2.trace = st.trace ++ WriteEvent.visitWrite visit_id :: tail ∧
       (tail = [] ∨ tail = [WriteEvent.patientWrite v.patient_dni])) ∧
     ((patientAddBloodAnalysis (visitAddBloodAnalysis st visit_id d pbd pbn
          f1 now).2 v.patient_dni d pbd pbn (some visit_id) f2 now).1 = none →
       (add_blood_analysis_with_patient_sync st visit_id d pbd pbn
          f1 f2 now).2.trace = st.trace ++ [WriteEvent.visitWrite visit_id])) ∧
    ((∃ vr, (add_radiology_study_with_patient_sync st visit_id rd pbd pbn
        g1 g2 now).1 = some vr) ∧
     (add_radiology_study_with_patient_sync st visit_id rd pbd pbn g1 g2 now).1 =
       (visitAddRadiologyStudy st visit_id rd pbd pbn g1 now).1 ∧
     (∃ tail,
       (add_radiology_study_with_patient_sync st visit_id rd pbd pbn
          g1 g2 now).2.trace = st.trace ++ WriteEvent.visitWrite visit_id :: tail ∧
       (tail = [] ∨ tail = [WriteEvent.patientWrite v.patient_dni])) ∧
     ((patientAddRadiologyStudy (visitAddRadiologyStudy st visit_id rd pbd pbn
          g1 now).2 v.patient_dni rd pbd pbn (some visit_id) g2 now).1 = none →
       (add_radiology_study_with_patient_sync st visit_id rd pbd pbn
          g1 g2 now).2.trace = st.trace ++ [WriteEvent.visitWrite visit_id])) := by
  have hfind' : st.visits.find? (fun w => w.visit_id == visit_id) = some v := hfind
  have hvid : v.visit_id = visit_id := by
    have hb := List.find?_some hfind'
    exact eq_of_beq hb
  constructor
  · unfold add_blood_analysis_with_patient_sync visitAddBloodAnalysis
      patientAddBloodAnalysis visitRepoUpdate patientRepoUpdate
      visitGetById patientGetByDni
    simp only [hfind']
    cases hp : st.patients.find? (fun q => q.dni == v.patient_dni) with
    | none =>
        simp only [hp]
        refine ⟨⟨_, rfl⟩, trivial, ⟨[], ?_, Or.inl rfl⟩, fun _ => ?_⟩ <;>
          simp [VisitDB.add_blood_analysis, VisitDB.update_timestamp, hvid,
            apply_ite (fun w : VisitDB => w.visit_id)]
    | some pt =>
        have hptdni : pt.dni = v.patient_dni := by
          have hb := List.find?_some hp
          exact eq_of_beq hb
        cases hpe : pt.enabled with
        | false =>
            simp only [hp, hpe, Bool.not_false, if_true]
            refine ⟨⟨_, rfl⟩, trivial, ⟨[], ?_, Or.inl rfl⟩, fun _ => ?_⟩ <;>
              simp [VisitDB.add_blood_analysis, VisitDB.update_timestamp, hvid,
                apply_ite (fun w : VisitDB => w.visit_id)]
        | true =>
            simp only [hp, hpe, Bool.not_true, Bool.false_eq_true, if_false]
            refine ⟨⟨_, rfl⟩, trivial,
              ⟨[WriteEvent.patientWrite v.patient_dni], ?_, Or.inr rfl⟩,
              fun hcontr => ?_⟩
            · simp [VisitDB.add_blood_analysis, VisitDB.update_timestamp, hvid,
                PatientDB.add_blood_analysis, PatientDB.update_timestamp,
                hptdni, apply_ite (fun w : VisitDB => w.visit_id),
                apply_ite (fun q : PatientDB => q.dni)]
            · simp at hcontr
  · unfold add_radiology_study_with_patient_sync visitAddRadiologyStudy
      patientAddRadiologyStudy visitRepoUpdate patientRepoUpdate
      visitGetById patientGetByDni
    simp only [hfind']
    cases hp : st.patients.find? (fun q => q.dni == v.patient_dni) with
    | none =>
        simp only [hp]
        refine ⟨⟨_, rfl⟩, trivial, ⟨[], ?_, Or.inl rfl⟩, fun _ => ?_⟩ <;>
          simp [VisitDB.add_radiology_study, VisitDB.update_timestamp, hvid,
            apply_ite (fun w : VisitDB => w.visit_id)]
    | some pt =>
        have hptdni : pt.dni = v.patient_dni := by
          have hb := List.find?_some hp
          exact eq_of_beq hb
        cases hpe : pt.enabled with
        | false =>
            simp only [hp, hpe, Bool.not_false, if_true]
            refine ⟨⟨_, rfl⟩, trivial, ⟨[], ?_, Or.inl rfl⟩, fun _ => ?_⟩ <;>
              simp [VisitDB.add_radiology_study, VisitDB.update_timestamp, hvid,
                apply_ite (fun w : VisitDB => w.visit_id)]
        | true =>
            simp only [hp, hpe, Bool.not_true, Bool.false_eq_true, if_false]
            refine ⟨⟨_, rfl⟩, trivial,
              ⟨[WriteEvent.patientWrite v.patient_dni], ?_, Or.inr rfl⟩,
              fun hcontr => ?_⟩
            · simp [VisitDB.add_radiology_study, VisitDB.update_timestamp, hvid,
                PatientDB.add_radiology_study, PatientDB.update_timestamp,
                hptdni, apply_ite (fun w : VisitDB => w.visit_id),
                apply_ite (fun q : PatientDB => q.dni)]
            · simp at hcontr

/-- A demo visit "V1" for patient "P1" with no recorded observations. -/
def demoVisit : VisitDB :=
  { visit_id := "V1", patient_dni := "P1", reason := "checkup",
    location := "ER", visit_status := VisitStatus.admission,
    priority_level := 3, attending_doctor_dni := "D1",
    referring_doctor_dni := none, blood_analyses := [],
    radiology_studies := [], created_at := 0, updated_at := 0,
    admission_date := 0, discharge_date := none, created_by := none,
    last_updated_by := none, is_completed := false }

/-- A demo clinic store with the demo visit and patient and an empty
write log. -/
def demoClinic : ClinicState :=
  { visits := [demoVisit], patients := [demoPatient], trace := [] }

/-- A demo blood-analysis payload. -/
def demoBloodCreate : BloodAnalysisCreate :=
  { red_blood_cells := 5, hemoglobin := 14, hematocrit := 42,
    platelets := 250000, lymphocytes := 30, glucose := 90,
    cholesterol := 180, urea := 30, cocaine := 0, alcohol := 0, mdma := 0,
    fentanyl := 0, notes := none }

/-- A demo radiology-study payload. -/
def demoStudyCreate : RadiologyStudyCreate :=
  { study_type := "X-Ray", body_part := "chest", findings := "clear",
    image_url := none }

/-- Witness for C1 at the demo clinic store. -/
theorem sync_visit_write_first_witness :
    visitGetById demoClinic "V1" = some demoVisit ∧
    (((∃ vr, (add_blood_analysis_with_patient_sync demoClinic "V1"
        demoBloodCreate (some "D1") (some "Doc") "fa1" "fa2" 7).1 = some vr) ∧
     (add_blood_analysis_with_patient_sync demoClinic "V1" demoBloodCreate
        (some "D1") (some "Doc") "fa1" "fa2" 7).1 =
       (visitAddBloodAnalysis demoClinic "V1" demoBloodCreate (some "D1")
         (some "Doc") "fa1" 7).1 ∧
     (∃ tail,
       (add_blood_analysis_with_patient_sync demoClinic "V1" demoBloodCreate
          (some "D1") (some "Doc") "fa1" "fa2" 7).2.trace =
         demoClinic.trace ++ WriteEvent.visitWrite "V1" :: tail ∧
       (tail = [] ∨ tail = [WriteEvent.patientWrite demoVisit.patient_dni])) ∧
     ((patientAddBloodAnalysis (visitAddBloodAnalysis demoClinic "V1"
          demoBloodCreate (some "D1") (some "Doc") "fa1" 7).2
          demoVisit.patient_dni demoBloodCreate (some "D1") (some "Doc")
          (some "V1") "fa2" 7).1 = none →
       (add_blood_analysis_with_patient_sync demoClinic "V1" demoBloodCreate
          (some "D1") (some "Doc") "fa1" "fa2" 7).2.trace =
         demoClinic.trace ++ [WriteEvent.visitWrite "V1"])) ∧
    ((∃ vr, (add_radiology_study_with_patient_sync demoClinic "V1"
        demoStudyCreate (some "D1") (some "Doc") "fs1" "fs2" 7).1 = some vr) ∧
     (add_radiology_study_with_patient_sync demoClinic "V1" demoStudyCreate
        (some "D1") (some "Doc") "fs1" "fs2" 7).1 =
       (visitAddRadiologyStudy demoClinic "V1" demoStudyCreate (some "D1")
         (some "Doc") "fs1" 7).1 ∧
     (∃ tail,
       (add_radiology_study_with_patient_sync demoClinic "V1" demoStudyCreate
          (some "D1") (some "Doc") "fs1" "fs2" 7).2.trace =
         demoClinic.trace ++ WriteEvent.visitWrite "V1" :: tail ∧
       (tail = [] ∨ tail = [WriteEvent.patientWrite demoVisit.patient_dni])) ∧
     ((patientAddRadiologyStudy (visitAddRadiologyStudy demoClinic "V1"
          demoStudyCreate (some "D1") (some "Doc") "fs1" 7).2
          demoVisit.patient_dni demoStudyCreate (some "D1") (some "Doc")
          (some "V1") "fs2" 7).1 = none →
       (add_radiology_study_with_patient_sync demoClinic "V1" demoStudyCreate
          (some "D1") (some "Doc") "fs1" "fs2" 7).2.trace =
         demoClinic.trace ++ [WriteEvent.visitWrite "V1"]))) :=
  ⟨rfl,
   sync_visit_write_first_and_patient_failure_tolerated demoClinic "V1"
     demoVisit demoBloodCreate demoStudyCreate (some "D1") (some "Doc")
     "fa1" "fa2" "fs1" "fs2" 7 rfl⟩

end MedicSystem
